import Mathlib

/-!
Shallow embedding of the application-protocol multiplexing layer of
`aptos-node/src/network2.rs`, together with the JWK representation
conversions pinned down by `types/src/jwks/jwk/tests.rs`.

Rust panics are embedded as `Except.error`; `&mut` state (the shared
`ApplicationCollector`) is passed and returned explicitly.  Machine
integers (`usize`, `u64`) are embedded as `Nat`; the `u64 -> usize`
casts in the source are identities on 64-bit targets and are dropped.
-/

namespace Network2

/-- Logical network identifier (`aptos_config::network_id::NetworkId`). -/
inductive NetworkId where
  | Validator
  | Vfn
  | Public
deriving DecidableEq, Repr

/-- Embeds `NetworkId::is_validator_network`: true exactly on the validator class. -/
def NetworkId.is_validator_network : NetworkId → Bool
  | NetworkId.Validator => true
  | _ => false

/-- Protocol identifiers used by the four applications wired in `network2.rs`
(`aptos_network2::protocols::wire::handshake::v1::ProtocolId`, restricted to
the variants this file mentions). -/
inductive ProtocolId where
  | ConsensusRpcBcs
  | ConsensusDirectSendBcs
  | ConsensusDirectSendCompressed
  | ConsensusRpcCompressed
  | ConsensusDirectSendJson
  | ConsensusRpcJson
  | MempoolDirectSend
  | PeerMonitoringServiceRpc
  | StorageServiceRpc
deriving DecidableEq, Repr

/-- Modelled from the spec: the consensus application's direct-send
ProtocolId set (`aptos_consensus::network_interface::DIRECT_SEND`, a
constant of a crate outside the excerpt; the spec requires only that the
consensus-style application has a fixed, non-empty protocol set). -/
def CONSENSUS_DIRECT_SEND : List ProtocolId :=
  [ProtocolId.ConsensusDirectSendCompressed,
   ProtocolId.ConsensusDirectSendBcs,
   ProtocolId.ConsensusDirectSendJson]

/-- Modelled from the spec: the consensus application's request/response
ProtocolId set (`aptos_consensus::network_interface::RPC`, a constant of a
crate outside the excerpt). -/
def CONSENSUS_RPC : List ProtocolId :=
  [ProtocolId.ConsensusRpcCompressed,
   ProtocolId.ConsensusRpcBcs,
   ProtocolId.ConsensusRpcJson]

/-- The fields of `aptos_config::config::NetworkConfig` read by the excerpt:
its network id, the mutual-authentication flag, and the runtime thread count. -/
structure NetworkConfig where
  network_id : NetworkId
  mutual_authentication : Bool
  runtime_threads : Option Nat
deriving DecidableEq, Repr

/-- Embeds `node_config.consensus`: the consensus application's own config section. -/
structure ConsensusConfig where
  max_network_channel_size : Nat
deriving DecidableEq, Repr

/-- Embeds `node_config.mempool`: the mempool application's own config section. -/
structure MempoolConfig where
  max_network_channel_size : Nat
deriving DecidableEq, Repr

/-- Embeds `node_config.state_sync.storage_service` config section. -/
structure StorageServiceConfig where
  max_network_channel_size : Nat
deriving DecidableEq, Repr

/-- Embeds `node_config.state_sync` config section (only the storage-service part
is read by the excerpt). -/
structure StateSyncConfig where
  storage_service : StorageServiceConfig
deriving DecidableEq, Repr

/-- Embeds `node_config.peer_monitoring_service` config section. -/
structure PeerMonitoringServiceConfig where
  max_network_channel_size : Nat
deriving DecidableEq, Repr

/-- The fields of `aptos_config::config::NodeConfig` read by the excerpt. -/
structure NodeConfig where
  full_node_networks : List NetworkConfig
  validator_network : Option NetworkConfig
  consensus : ConsensusConfig
  mempool : MempoolConfig
  state_sync : StateSyncConfig
  peer_monitoring_service : PeerMonitoringServiceConfig
deriving DecidableEq, Repr

/-- Opaque handle standing for the shared
`Arc<OutboundPeerConnections>` registry; the tag lets distinct handles be
told apart so that "bound to the shared registry" is expressible. -/
structure OutboundPeerConnections where
  tag : Nat
deriving DecidableEq, Repr

/-- Embeds `PeersAndMetadata` as read by the excerpt: `PeersAndMetadata::new` is
given the list of network ids it is scoped over. -/
structure PeersAndMetadata where
  network_ids : List NetworkId
deriving DecidableEq, Repr

/-- Embeds `PeersAndMetadata::new(&network_ids)`. -/
def PeersAndMetadata.new (network_ids : List NetworkId) : PeersAndMetadata :=
  { network_ids := network_ids }

/-- One per-(application, protocol) bounded-queue registration
(`aptos_network2::application::ApplicationConnections`): the protocol it
owns, the queue capacity, and the counter label. -/
structure ApplicationConnections where
  protocol_id : ProtocolId
  queue_size : Nat
  counter_label : String
deriving DecidableEq, Repr

/-- The receiver half handed back by `ApplicationConnections::build`,
identified by the queue it drains. -/
structure Receiver where
  protocol_id : ProtocolId
  queue_size : Nat
  counter_label : String
deriving DecidableEq, Repr

/-- Embeds `ApplicationConnections::build(protocol_id, queue_size, counter_label)`:
creates the bounded queue and returns the registration together with the
receiver half. -/
def ApplicationConnections.build (protocol_id : ProtocolId) (queue_size : Nat)
    (counter_label : String) : ApplicationConnections × Receiver :=
  ({ protocol_id := protocol_id, queue_size := queue_size, counter_label := counter_label },
   { protocol_id := protocol_id, queue_size := queue_size, counter_label := counter_label })

/-- The `ApplicationConnections` that `ApplicationConnections::build`
creates for one protocol (the first component of its result). -/
def builtConnection (queue_size : Nat) (counter_label : String)
    (protocol_id : ProtocolId) : ApplicationConnections :=
  { protocol_id := protocol_id, queue_size := queue_size, counter_label := counter_label }

/-- The receiver half that `ApplicationConnections::build` hands back for
one protocol (the second component of its result). -/
def builtReceiver (queue_size : Nat) (counter_label : String)
    (protocol_id : ProtocolId) : Receiver :=
  { protocol_id := protocol_id, queue_size := queue_size, counter_label := counter_label }

/-- The shared `ApplicationCollector` the router consults; `add` registers
one `ApplicationConnections`. -/
structure ApplicationCollector where
  apps : List ApplicationConnections
deriving DecidableEq, Repr

/-- Embeds `ApplicationCollector::add`. -/
def ApplicationCollector.add (c : ApplicationCollector)
    (a : ApplicationConnections) : ApplicationCollector :=
  { apps := c.apps ++ [a] }

/-- Embeds `NetworkSource`: fan-in of one (`new_single_source`) or several
(`new_multi_source`) per-protocol receivers. -/
inductive NetworkSource where
  | single (r : Receiver)
  | multi (rs : List Receiver)
deriving DecidableEq, Repr

/-- Embeds `NetworkSource::new_single_source`. -/
def NetworkSource.new_single_source (r : Receiver) : NetworkSource :=
  NetworkSource.single r

/-- Embeds `NetworkSource::new_multi_source`. -/
def NetworkSource.new_multi_source (rs : List Receiver) : NetworkSource :=
  NetworkSource.multi rs

/-- The receivers a `NetworkSource` merges. -/
def NetworkSource.receivers : NetworkSource → List Receiver
  | NetworkSource.single r => [r]
  | NetworkSource.multi rs => rs

/-- Embeds `NetworkSender::new(network_id, peer_senders)`: one outbound sender
bound to one logical network and the shared outbound registry. -/
structure NetworkSender where
  network_id : NetworkId
  peer_senders : OutboundPeerConnections
deriving DecidableEq, Repr

/-- Embeds `NetworkSender::new`. -/
def NetworkSender.new (network_id : NetworkId)
    (peer_senders : OutboundPeerConnections) : NetworkSender :=
  { network_id := network_id, peer_senders := peer_senders }

/-- The sender map (`HashMap<NetworkId, NetworkSender>`) embedded as an
association list with HashMap insert semantics (replace on existing key,
append otherwise). -/
abbrev SenderMap := List (NetworkId × NetworkSender)

/-- Embeds `HashMap::insert` on the sender map: replace the binding when the key
is present, append a new binding otherwise. -/
def insertSender : SenderMap → NetworkId → NetworkSender → SenderMap
  | [], k, v => [(k, v)]
  | (k', v') :: rest, k, v =>
    if k' = k then (k, v) :: rest else (k', v') :: insertSender rest k v

/-- Embeds `HashMap::get` on the sender map. -/
def getSender : SenderMap → NetworkId → Option NetworkSender
  | [], _ => none
  | (k, v) :: rest, k' => if k' = k then some v else getSender rest k'

/-- Embeds `NetworkClient::new(direct_send, rpc, network_senders, peers_and_metadata)`. -/
structure NetworkClient where
  direct_send_protocols_and_preferences : List ProtocolId
  rpc_protocols_and_preferences : List ProtocolId
  network_senders : SenderMap
  peers_and_metadata : PeersAndMetadata

/-- Embeds `NetworkClient::new`. -/
def NetworkClient.new (direct_send rpc : List ProtocolId)
    (network_senders : SenderMap)
    (peers_and_metadata : PeersAndMetadata) : NetworkClient :=
  { direct_send_protocols_and_preferences := direct_send,
    rpc_protocols_and_preferences := rpc,
    network_senders := network_senders,
    peers_and_metadata := peers_and_metadata }

/-- Embeds `NetworkEvents::new(network_source, peer_senders)`. -/
structure NetworkEvents where
  network_source : NetworkSource
  peer_senders : OutboundPeerConnections

/-- Embeds `NetworkEvents::new`. -/
def NetworkEvents.new (network_source : NetworkSource)
    (peer_senders : OutboundPeerConnections) : NetworkEvents :=
  { network_source := network_source, peer_senders := peer_senders }

/-- Embeds `ApplicationNetworkInterfaces<T>`: the Client/Events pair handed to an
application (the message type parameter is phantom at this layer). -/
structure ApplicationNetworkInterfaces where
  network_client : NetworkClient
  network_events : NetworkEvents

/-- Embeds `ApplicationNetworkInterfaces::new`: builds one `NetworkSender` per
network id (a `for` loop of `HashMap::insert`), assembles the
`NetworkClient` and the `NetworkEvents`. -/
def ApplicationNetworkInterfaces.new
    (direct_send_protocols_and_preferences : List ProtocolId)
    (rpc_protocols_and_preferences : List ProtocolId)
    (peers_and_metadata : PeersAndMetadata)
    (network_source : NetworkSource)
    (network_ids : List NetworkId)
    (peer_senders : OutboundPeerConnections) : ApplicationNetworkInterfaces :=
  let network_senders := network_ids.foldl
    (fun m network_id => insertSender m network_id (NetworkSender.new network_id peer_senders))
    ([] : SenderMap)
  let network_client := NetworkClient.new
    direct_send_protocols_and_preferences
    rpc_protocols_and_preferences
    network_senders
    peers_and_metadata
  let network_events := NetworkEvents.new network_source peer_senders
  { network_client := network_client, network_events := network_events }

/-- Embeds `has_validator_network(node_config)`: scans only `full_node_networks`
for a validator-class network id. -/
def has_validator_network (node_config : NodeConfig) : Bool :=
  node_config.full_node_networks.any (fun net_config => net_config.network_id.is_validator_network)

/-- The body of the two `for` loops of `build_network_connections`: build
the connections for one protocol, push the receiver, register the
connections with the collector. -/
def buildStep (queue_size : Nat) (counter_label : String)
    (acc : List Receiver × ApplicationCollector) (protocol_id : ProtocolId) :
    List Receiver × ApplicationCollector :=
  let (app_con, receiver) := ApplicationConnections.build protocol_id queue_size counter_label
  (acc.1 ++ [receiver], acc.2.add app_con)

/-- Embeds `build_network_connections`: one `ApplicationConnections` per declared
protocol (direct-send list first, then rpc list), each registered with the
collector; the receivers are fanned into one `NetworkSource` (single if
exactly one, multi if more, panic — `Except.error` — if none). -/
def build_network_connections
    (direct_send_protocols : List ProtocolId)
    (rpc_protocols : List ProtocolId)
    (queue_size : Nat)
    (counter_label : String)
    (peers_and_metadata : PeersAndMetadata)
    (apps : ApplicationCollector)
    (network_ids : List NetworkId)
    (peer_senders : OutboundPeerConnections) :
    Except String (ApplicationNetworkInterfaces × ApplicationCollector) :=
  let acc1 := direct_send_protocols.foldl (buildStep queue_size counter_label) ([], apps)
  let acc2 := rpc_protocols.foldl (buildStep queue_size counter_label) acc1
  match acc2.1 with
  | [] => Except.error (counter_label ++ " built no receivers")
  | [r] => Except.ok
      (ApplicationNetworkInterfaces.new direct_send_protocols rpc_protocols
        peers_and_metadata (NetworkSource.new_single_source r) network_ids peer_senders,
       acc2.2)
  | r1 :: r2 :: rest => Except.ok
      (ApplicationNetworkInterfaces.new direct_send_protocols rpc_protocols
        peers_and_metadata (NetworkSource.new_multi_source (r1 :: r2 :: rest)) network_ids peer_senders,
       acc2.2)

/-- Embeds `extract_network_ids(node_config)`: the full-node network ids in
declared order, then the validator network's id when configured. -/
def extract_network_ids (node_config : NodeConfig) : List NetworkId :=
  (node_config.full_node_networks.map (fun network_config => network_config.network_id)) ++
    (match node_config.validator_network with
     | some network_config => [network_config.network_id]
     | none => [])

/-- Embeds `create_peers_and_metadata(node_config)`. -/
def create_peers_and_metadata (node_config : NodeConfig) : PeersAndMetadata :=
  PeersAndMetadata.new (extract_network_ids node_config)

/-- Embeds `consensus_network_connections`: returns `none` when
`has_validator_network` is false (touching nothing), otherwise wires the
consensus protocol lists with the consensus config's channel size. -/
def consensus_network_connections
    (node_config : NodeConfig)
    (peers_and_metadata : PeersAndMetadata)
    (apps : ApplicationCollector)
    (peer_senders : OutboundPeerConnections) :
    Except String (Option ApplicationNetworkInterfaces × ApplicationCollector) :=
  if !(has_validator_network node_config) then
    Except.ok (none, apps)
  else
    let direct_send_protocols := CONSENSUS_DIRECT_SEND
    let rpc_protocols := CONSENSUS_RPC
    let queue_size := node_config.consensus.max_network_channel_size
    let counter_label := "consensus"
    let network_ids := extract_network_ids node_config
    (build_network_connections direct_send_protocols rpc_protocols queue_size
        counter_label peers_and_metadata apps network_ids peer_senders).map
      (fun p => (some p.1, p.2))

/-- Embeds `peer_monitoring_network_connections`. -/
def peer_monitoring_network_connections
    (node_config : NodeConfig)
    (peers_and_metadata : PeersAndMetadata)
    (apps : ApplicationCollector)
    (peer_senders : OutboundPeerConnections) :
    Except String (ApplicationNetworkInterfaces × ApplicationCollector) :=
  let direct_send_protocols : List ProtocolId := []
  let rpc_protocols := [ProtocolId.PeerMonitoringServiceRpc]
  let queue_size := node_config.peer_monitoring_service.max_network_channel_size
  let counter_label := "peer_monitoring"
  let network_ids := extract_network_ids node_config
  build_network_connections direct_send_protocols rpc_protocols queue_size
    counter_label peers_and_metadata apps network_ids peer_senders

/-- Embeds `storage_service_network_connections`. -/
def storage_service_network_connections
    (node_config : NodeConfig)
    (peers_and_metadata : PeersAndMetadata)
    (apps : ApplicationCollector)
    (peer_senders : OutboundPeerConnections) :
    Except String (ApplicationNetworkInterfaces × ApplicationCollector) :=
  let direct_send_protocols : List ProtocolId := []
  let rpc_protocols := [ProtocolId.StorageServiceRpc]
  let queue_size := node_config.state_sync.storage_service.max_network_channel_size
  let counter_label := "storage_service"
  let network_ids := extract_network_ids node_config
  build_network_connections direct_send_protocols rpc_protocols queue_size
    counter_label peers_and_metadata apps network_ids peer_senders

/-- Embeds `mempool_network_connections`. -/
def mempool_network_connections
    (node_config : NodeConfig)
    (peers_and_metadata : PeersAndMetadata)
    (apps : ApplicationCollector)
    (peer_senders : OutboundPeerConnections) :
    Except String (ApplicationNetworkInterfaces × ApplicationCollector) :=
  let direct_send_protocols := [ProtocolId.MempoolDirectSend]
  let rpc_protocols : List ProtocolId := []
  let queue_size := node_config.mempool.max_network_channel_size
  let counter_label := "mempool"
  let network_ids := extract_network_ids node_config
  build_network_connections direct_send_protocols rpc_protocols queue_size
    counter_label peers_and_metadata apps network_ids peer_senders

/-- Embeds `extract_network_configs(node_config)`: all full-node network configs,
plus the validator network config when present — after the fatal
mutual-authentication check on it (`panic!` embedded as `Except.error`). -/
def extract_network_configs (node_config : NodeConfig) :
    Except String (List NetworkConfig) :=
  match node_config.validator_network with
  | none => Except.ok node_config.full_node_networks
  | some network_config =>
    if !network_config.mutual_authentication then
      Except.error "Validator networks must always have mutual_authentication enabled!"
    else
      Except.ok (node_config.full_node_networks ++ [network_config])

/-- A network runtime, as created by `create_network_runtime` (thread name
and thread count taken from the network config). -/
structure Runtime where
  network_id : NetworkId
  runtime_threads : Option Nat
deriving DecidableEq, Repr

/-- Embeds `create_network_runtime(network_config)`. -/
def create_network_runtime (network_config : NetworkConfig) : Runtime :=
  { network_id := network_config.network_id,
    runtime_threads := network_config.runtime_threads }

/-- A `NetworkBuilder` as created and built in `setup_networks`: bound to
one network config and the shared registries. -/
structure NetworkBuilder where
  chain_id : Nat
  network_config : NetworkConfig
  peers_and_metadata : PeersAndMetadata
  peer_senders : OutboundPeerConnections
deriving DecidableEq, Repr

/-- Embeds `NetworkBuilder::create`. -/
def NetworkBuilder.create (chain_id : Nat) (network_config : NetworkConfig)
    (peers_and_metadata : PeersAndMetadata)
    (peer_senders : OutboundPeerConnections) : NetworkBuilder :=
  { chain_id := chain_id, network_config := network_config,
    peers_and_metadata := peers_and_metadata, peer_senders := peer_senders }

/-- Embeds `setup_networks`: first evaluates `extract_network_configs` (which holds
the fatal mutual-authentication check), then, per surviving config, creates
one runtime and one built `NetworkBuilder`. -/
def setup_networks (node_config : NodeConfig) (chain_id : Nat)
    (peers_and_metadata : PeersAndMetadata)
    (peer_senders : OutboundPeerConnections) :
    Except String (List Runtime × List NetworkBuilder) :=
  (extract_network_configs node_config).map (fun network_configs =>
    network_configs.foldl
      (fun acc network_config =>
        let runtime := create_network_runtime network_config
        let network_builder := NetworkBuilder.create chain_id network_config
          peers_and_metadata peer_senders
        (acc.1 ++ [runtime], acc.2 ++ [network_builder]))
      ([], []))

/-- A sample shared peers-and-metadata handle (for concrete instantiations). -/
def sample_pam : PeersAndMetadata := { network_ids := [] }

/-- A sample shared outbound-connections handle. -/
def sample_ps : OutboundPeerConnections := { tag := 0 }

/-- A sample empty application collector. -/
def sample_apps : ApplicationCollector := { apps := [] }

/-- A sample validator network config with mutual authentication enabled. -/
def sample_vcfg : NetworkConfig :=
  { network_id := NetworkId.Validator, mutual_authentication := true, runtime_threads := some 4 }

/-- A sample validator network config with mutual authentication disabled. -/
def sample_vcfg_noauth : NetworkConfig :=
  { network_id := NetworkId.Validator, mutual_authentication := false, runtime_threads := some 4 }

/-- A sample public full-node network config. -/
def sample_pcfg : NetworkConfig :=
  { network_id := NetworkId.Public, mutual_authentication := false, runtime_threads := some 2 }

/-- A sample node config that declares its validator-class network only via
the `validator_network` field (empty `full_node_networks`). -/
def sample_nc_vonly : NodeConfig :=
  { full_node_networks := [],
    validator_network := some sample_vcfg,
    consensus := { max_network_channel_size := 10 },
    mempool := { max_network_channel_size := 11 },
    state_sync := { storage_service := { max_network_channel_size := 12 } },
    peer_monitoring_service := { max_network_channel_size := 13 } }

/-- A sample node config whose `full_node_networks` contains a
validator-class network. -/
def sample_nc_fullnode_validator : NodeConfig :=
  { sample_nc_vonly with full_node_networks := [sample_vcfg], validator_network := none }

/-- A sample node config whose validator network lacks mutual
authentication. -/
def sample_nc_noauth : NodeConfig :=
  { sample_nc_vonly with
    full_node_networks := [sample_pcfg]
    validator_network := some sample_vcfg_noauth }

end Network2

namespace Jwks

/-!
Modelled from the spec: the JWK representation conversions
(`JWK`, `JWKMoveStruct`, `RSA_JWK`, `UnsupportedJWK`, `MoveAny`,
`as_move_any`, `From<JWK> for JWKMoveStruct`, `TryFrom<&JWKMoveStruct> for
JWK`) live in `types/src/jwks` outside the excerpt; only their unit tests
(`types/src/jwks/jwk/tests.rs`) are in the excerpt.  The spec describes
them as pure data transformation (credential-like structure parsing,
"exercised only by conversion unit tests").  Bytes are `Nat`s; the BCS
serialization inside `as_move_any` is embedded as a length-prefixed
encoding with a full deserializer that fails on trailing bytes, matching
BCS's behavior on the structures involved.
-/

/-- An RSA JWK: the five string fields set by
`RSA_JWK::new_for_testing(kid, kty, alg, e, n)`. -/
structure RSA_JWK where
  kid : String
  kty : String
  alg : String
  e : String
  n : String
deriving DecidableEq, Repr

/-- An unsupported JWK: raw id and payload bytes. -/
structure UnsupportedJWK where
  id : List Nat
  payload : List Nat
deriving DecidableEq, Repr

/-- Embeds `UnsupportedJWK::new_for_testing(id, payload)` builds it from the UTF-8
bytes of two strings. -/
def UnsupportedJWK.new_for_testing (id payload : String) : UnsupportedJWK :=
  { id := id.data.map Char.toNat, payload := payload.data.map Char.toNat }

/-- Embeds `MoveAny`: a type name together with serialized data bytes. -/
structure MoveAny where
  type_name : String
  data : List Nat
deriving DecidableEq, Repr

/-- The on-chain `JWKMoveStruct`: a single `MoveAny` variant. -/
structure JWKMoveStruct where
  variant : MoveAny
deriving DecidableEq, Repr

/-- The native JWK representation: RSA or Unsupported. -/
inductive JWK where
  | RSA (k : RSA_JWK)
  | Unsupported (k : UnsupportedJWK)
deriving DecidableEq, Repr

/-- Length-prefixed byte-string encoding (stands in for BCS `Vec<u8>`). -/
def encBytes (l : List Nat) : List Nat := l.length :: l

/-- Decoder for `encBytes`: returns the decoded bytes and the remainder. -/
def decBytes : List Nat → Option (List Nat × List Nat)
  | [] => none
  | len :: rest =>
    if len ≤ rest.length then some (rest.take len, rest.drop len) else none

/-- String encoding: the code points, length-prefixed (stands in for BCS
`String`). -/
def encString (s : String) : List Nat := encBytes (s.data.map Char.toNat)

/-- Decoder for `encString`. -/
def decString (l : List Nat) : Option (String × List Nat) :=
  (decBytes l).map (fun p => (String.mk (p.1.map Char.ofNat), p.2))

/-- Move type name of `RSA_JWK`. -/
def RSA_JWK.MOVE_TYPE_NAME : String := "0x1::jwks::RSA_JWK"

/-- Move type name of `UnsupportedJWK`. -/
def UnsupportedJWK.MOVE_TYPE_NAME : String := "0x1::jwks::UnsupportedJWK"

/-- Serialization of an `RSA_JWK` (its five fields in order). -/
def RSA_JWK.serialize (k : RSA_JWK) : List Nat :=
  encString k.kid ++ (encString k.kty ++ (encString k.alg ++
    (encString k.e ++ encString k.n)))

/-- Deserialization of an `RSA_JWK`; fails on trailing bytes. -/
def RSA_JWK.deserialize (l : List Nat) : Option RSA_JWK :=
  (decString l).bind (fun p1 =>
  (decString p1.2).bind (fun p2 =>
  (decString p2.2).bind (fun p3 =>
  (decString p3.2).bind (fun p4 =>
  (decString p4.2).bind (fun p5 =>
    if p5.2 = [] then
      some { kid := p1.1, kty := p2.1, alg := p3.1, e := p4.1, n := p5.1 }
    else
      none)))))

/-- Serialization of an `UnsupportedJWK` (id bytes, then payload bytes). -/
def UnsupportedJWK.serialize (k : UnsupportedJWK) : List Nat :=
  encBytes k.id ++ encBytes k.payload

/-- Deserialization of an `UnsupportedJWK`; fails on trailing bytes. -/
def UnsupportedJWK.deserialize (l : List Nat) : Option UnsupportedJWK :=
  (decBytes l).bind (fun p1 =>
  (decBytes p1.2).bind (fun p2 =>
    if p2.2 = [] then some { id := p1.1, payload := p2.1 } else none))

/-- Embeds `RSA_JWK::as_move_any`. -/
def RSA_JWK.as_move_any (k : RSA_JWK) : MoveAny :=
  { type_name := RSA_JWK.MOVE_TYPE_NAME, data := k.serialize }

/-- Embeds `UnsupportedJWK::as_move_any`. -/
def UnsupportedJWK.as_move_any (k : UnsupportedJWK) : MoveAny :=
  { type_name := UnsupportedJWK.MOVE_TYPE_NAME, data := k.serialize }

/-- Embeds `From<JWK> for JWKMoveStruct`: wrap the variant's `as_move_any`. -/
def JWKMoveStruct.from (jwk : JWK) : JWKMoveStruct :=
  match jwk with
  | JWK.RSA k => { variant := k.as_move_any }
  | JWK.Unsupported k => { variant := k.as_move_any }

/-- Embeds `TryFrom<&JWKMoveStruct> for JWK`: dispatch on the variant's type name,
deserialize its data; unknown type names are an error. -/
def JWK.try_from (m : JWKMoveStruct) : Except String JWK :=
  if m.variant.type_name = RSA_JWK.MOVE_TYPE_NAME then
    match RSA_JWK.deserialize m.variant.data with
    | some k => Except.ok (JWK.RSA k)
    | none => Except.error "RSA_JWK deserialization failed"
  else if m.variant.type_name = UnsupportedJWK.MOVE_TYPE_NAME then
    match UnsupportedJWK.deserialize m.variant.data with
    | some k => Except.ok (JWK.Unsupported k)
    | none => Except.error "UnsupportedJWK deserialization failed"
  else
    Except.error "unknown JWK variant type name"

end Jwks

namespace Network2

lemma foldl_buildStep (qs : Nat) (label : String) (l : List ProtocolId) :
    ∀ (rcv : List Receiver) (c : ApplicationCollector),
      l.foldl (buildStep qs label) (rcv, c) =
        (rcv ++ l.map (builtReceiver qs label),
         { apps := c.apps ++ l.map (builtConnection qs label) }) := by
  induction l with
  | nil => intro rcv c; simp
  | cons p t ih =>
    intro rcv c
    simp only [List.foldl_cons, List.map_cons]
    rw [show buildStep qs label (rcv, c) p =
        (rcv ++ [builtReceiver qs label p], (c.add (builtConnection qs label p))) from rfl]
    rw [ih]
    simp [ApplicationCollector.add, List.append_assoc]

lemma build_network_connections_eq_error (ds rpc : List ProtocolId) (qs : Nat)
    (label : String) (pam : PeersAndMetadata) (apps : ApplicationCollector)
    (nids : List NetworkId) (ps : OutboundPeerConnections)
    (h : ds ++ rpc = []) :
    build_network_connections ds rpc qs label pam apps nids ps =
      Except.error (label ++ " built no receivers") := by
  unfold build_network_connections
  simp only [foldl_buildStep, List.nil_append, ← List.map_append, h, List.map_nil]

lemma build_network_connections_eq_single (ds rpc : List ProtocolId) (qs : Nat)
    (label : String) (pam : PeersAndMetadata) (apps : ApplicationCollector)
    (nids : List NetworkId) (ps : OutboundPeerConnections) (p : ProtocolId)
    (h : ds ++ rpc = [p]) :
    build_network_connections ds rpc qs label pam apps nids ps =
      Except.ok
        (ApplicationNetworkInterfaces.new ds rpc pam
          (NetworkSource.single (builtReceiver qs label p)) nids ps,
         { apps := apps.apps ++ [builtConnection qs label p] }) := by
  unfold build_network_connections
  simp only [foldl_buildStep, List.nil_append, List.append_assoc, ← List.map_append, h,
    List.map_cons, List.map_nil]
  rfl

lemma build_network_connections_eq_multi (ds rpc : List ProtocolId) (qs : Nat)
    (label : String) (pam : PeersAndMetadata) (apps : ApplicationCollector)
    (nids : List NetworkId) (ps : OutboundPeerConnections)
    (p1 p2 : ProtocolId) (t : List ProtocolId)
    (h : ds ++ rpc = p1 :: p2 :: t) :
    build_network_connections ds rpc qs label pam apps nids ps =
      Except.ok
        (ApplicationNetworkInterfaces.new ds rpc pam
          (NetworkSource.multi ((p1 :: p2 :: t).map (builtReceiver qs label))) nids ps,
         { apps := apps.apps ++ (p1 :: p2 :: t).map (builtConnection qs label) }) := by
  unfold build_network_connections
  simp only [foldl_buildStep, List.nil_append, List.append_assoc, ← List.map_append, h,
    List.map_cons]
  rfl

end Network2

namespace Network2

lemma getSender_insertSender (m : SenderMap) (k : NetworkId) (v : NetworkSender)
    (k' : NetworkId) :
    getSender (insertSender m k v) k' = if k' = k then some v else getSender m k' := by
  induction m with
  | nil => simp [insertSender, getSender]
  | cons hd tl ih =>
    obtain ⟨k0, v0⟩ := hd
    simp only [insertSender]
    by_cases h0 : k0 = k
    · subst h0
      by_cases h1 : k' = k0 <;> simp [getSender, h1]
    · by_cases h1 : k' = k0
      · subst h1
        simp [getSender, h0]
      · simp [getSender, h0, h1, ih]

lemma getSender_foldl_insert (ps : OutboundPeerConnections) (ids : List NetworkId) :
    ∀ (m : SenderMap) (k : NetworkId),
      getSender
        (ids.foldl
          (fun m network_id => insertSender m network_id (NetworkSender.new network_id ps)) m) k
        = if k ∈ ids then some (NetworkSender.new k ps) else getSender m k := by
  induction ids with
  | nil => intro m k; simp
  | cons i t ih =>
    intro m k
    simp only [List.foldl_cons]
    rw [ih]
    by_cases h : k ∈ t
    · simp [h]
    · by_cases h2 : k = i
      · subst h2
        simp [h, getSender_insertSender]
      · simp [h, h2, getSender_insertSender]

lemma interfaces_new_getSender (ds rpc : List ProtocolId) (pam : PeersAndMetadata)
    (src : NetworkSource) (ids : List NetworkId) (ps : OutboundPeerConnections)
    (k : NetworkId) :
    getSender
      (ApplicationNetworkInterfaces.new ds rpc pam src ids ps).network_client.network_senders k
      = if k ∈ ids then some (NetworkSender.new k ps) else none := by
  simp only [ApplicationNetworkInterfaces.new, NetworkClient.new]
  rw [getSender_foldl_insert]
  simp [getSender]

lemma setup_networks_foldl (chain_id : Nat) (pam : PeersAndMetadata)
    (ps : OutboundPeerConnections) (cfgs : List NetworkConfig) :
    ∀ (acc : List Runtime × List NetworkBuilder),
      cfgs.foldl
        (fun acc network_config =>
          let runtime := create_network_runtime network_config
          let network_builder := NetworkBuilder.create chain_id network_config pam ps
          (acc.1 ++ [runtime], acc.2 ++ [network_builder])) acc
      = (acc.1 ++ cfgs.map create_network_runtime,
         acc.2 ++ cfgs.map (fun c => NetworkBuilder.create chain_id c pam ps)) := by
  induction cfgs with
  | nil => intro acc; simp
  | cons c t ih =>
    intro acc
    simp only [List.foldl_cons]
    rw [ih]
    simp [List.append_assoc]

end Network2

namespace Jwks

lemma decBytes_encBytes_append (l rest : List Nat) :
    decBytes (encBytes l ++ rest) = some (l, rest) := by
  simp [encBytes, decBytes, List.take_left, List.drop_left]

lemma decBytes_encBytes (l : List Nat) : decBytes (encBytes l) = some (l, []) := by
  have h := decBytes_encBytes_append l []
  simpa using h

lemma map_ofNat_toNat (cs : List Char) : (cs.map Char.toNat).map Char.ofNat = cs := by
  induction cs with
  | nil => rfl
  | cons c t ih => simp [ih, Char.ofNat_toNat]

lemma decString_encString_append (s : String) (rest : List Nat) :
    decString (encString s ++ rest) = some (s, rest) := by
  unfold decString encString
  rw [decBytes_encBytes_append]
  simp only [Option.map_some']
  rw [map_ofNat_toNat]

lemma decString_encString (s : String) : decString (encString s) = some (s, []) := by
  have h := decString_encString_append s []
  simpa using h

lemma rsa_deserialize_serialize (k : RSA_JWK) :
    RSA_JWK.deserialize k.serialize = some k := by
  simp [RSA_JWK.serialize, RSA_JWK.deserialize, decString_encString_append,
    decString_encString]

lemma unsupported_deserialize_serialize (k : UnsupportedJWK) :
    UnsupportedJWK.deserialize k.serialize = some k := by
  simp [UnsupportedJWK.serialize, UnsupportedJWK.deserialize,
    decBytes_encBytes_append, decBytes_encBytes]

end Jwks

namespace Network2

lemma has_validator_network_false_of_all (nc : NodeConfig)
    (h : nc.full_node_networks.all
      (fun net_config => !net_config.network_id.is_validator_network)) :
    has_validator_network nc = false := by
  rw [has_validator_network, List.any_eq_false]
  intro c hc
  have hcv := (List.all_eq_true.mp h) c hc
  simpa using hcv

lemma consensus_connections_ok (nc : NodeConfig) (pam : PeersAndMetadata)
    (apps : ApplicationCollector) (ps : OutboundPeerConnections)
    (hv : has_validator_network nc = true) :
    consensus_network_connections nc pam apps ps =
      Except.ok
        (some (ApplicationNetworkInterfaces.new CONSENSUS_DIRECT_SEND CONSENSUS_RPC pam
          (NetworkSource.multi ((CONSENSUS_DIRECT_SEND ++ CONSENSUS_RPC).map
            (builtReceiver nc.consensus.max_network_channel_size "consensus")))
          (extract_network_ids nc) ps),
         { apps := apps.apps ++ (CONSENSUS_DIRECT_SEND ++ CONSENSUS_RPC).map
            (builtConnection nc.consensus.max_network_channel_size "consensus") }) := by
  have hb := build_network_connections_eq_multi CONSENSUS_DIRECT_SEND CONSENSUS_RPC
    nc.consensus.max_network_channel_size "consensus" pam apps (extract_network_ids nc) ps
    ProtocolId.ConsensusDirectSendCompressed ProtocolId.ConsensusDirectSendBcs
    [ProtocolId.ConsensusDirectSendJson, ProtocolId.ConsensusRpcCompressed,
     ProtocolId.ConsensusRpcBcs, ProtocolId.ConsensusRpcJson] rfl
  simp only [consensus_network_connections, hv, Bool.not_true, Bool.false_eq_true, if_false]
  rw [hb]
  rfl

/-- C1 counterexample: the sample configuration declares a validator-class
network (through its `validator_network` field), yet
`consensus_network_connections` returns the absent value, because
`has_validator_network` scans only `full_node_networks`. -/
theorem consensus_absent_despite_validator_network :
    (sample_nc_vonly.validator_network.map
      (fun c => c.network_id.is_validator_network) = some true) ∧
    consensus_network_connections sample_nc_vonly sample_pam sample_apps sample_ps =
      Except.ok (none, sample_apps) :=
  ⟨rfl, rfl⟩

/-- C1 (amended): `consensus_network_connections` returns the explicit
absent value — allocating no queues — exactly when no network in
`full_node_networks` is of the permissioned-validator class; when
`full_node_networks` does contain a validator-class network, it builds and
returns an interface. -/
theorem consensus_network_connections_fullnode_gate (nc : NodeConfig)
    (pam : PeersAndMetadata) (apps : ApplicationCollector)
    (ps : OutboundPeerConnections) :
    (nc.full_node_networks.all
        (fun net_config => !net_config.network_id.is_validator_network) →
      consensus_network_connections nc pam apps ps = Except.ok (none, apps)) ∧
    ((∃ c ∈ nc.full_node_networks, c.network_id.is_validator_network) →
      ∃ iface apps2,
        consensus_network_connections nc pam apps ps =
          Except.ok (some iface, apps2)) := by
  constructor
  · intro h
    have hv := has_validator_network_false_of_all nc h
    simp [consensus_network_connections, hv]
  · intro h
    have hv : has_validator_network nc = true := by
      rw [has_validator_network, List.any_eq_true]
      obtain ⟨c, hc, hcv⟩ := h
      exact ⟨c, hc, hcv⟩
    exact ⟨_, _, consensus_connections_ok nc pam apps ps hv⟩

/-- C1 witness: both branches of the amended gate at concrete
configurations. -/
theorem consensus_network_connections_fullnode_gate_witness :
    consensus_network_connections sample_nc_noauth sample_pam sample_apps sample_ps =
      Except.ok (none, sample_apps) ∧
    (∃ iface apps2,
      consensus_network_connections sample_nc_fullnode_validator sample_pam
        sample_apps sample_ps = Except.ok (some iface, apps2)) :=
  ⟨(consensus_network_connections_fullnode_gate sample_nc_noauth sample_pam
      sample_apps sample_ps).1 (by decide),
   (consensus_network_connections_fullnode_gate sample_nc_fullnode_validator sample_pam
      sample_apps sample_ps).2 ⟨sample_vcfg, by decide, by decide⟩⟩

/-- C2: `extract_network_configs` fails — with the fatal
mutual-authentication message — exactly when a validator network is
configured with mutual authentication disabled; with the flag enabled, or
with no validator network, it returns the network configs normally. -/
theorem extract_network_configs_mutual_auth (nc : NodeConfig) :
    (nc.validator_network = none →
      extract_network_configs nc = Except.ok nc.full_node_networks) ∧
    (∀ vc, nc.validator_network = some vc → vc.mutual_authentication = false →
      extract_network_configs nc =
        Except.error "Validator networks must always have mutual_authentication enabled!") ∧
    (∀ vc, nc.validator_network = some vc → vc.mutual_authentication = true →
      extract_network_configs nc = Except.ok (nc.full_node_networks ++ [vc])) := by
  refine ⟨?_, ?_, ?_⟩
  · intro h
    simp [extract_network_configs, h]
  · intro vc h hm
    simp [extract_network_configs, h, hm]
  · intro vc h hm
    simp [extract_network_configs, h, hm]

/-- C2 witness: the fatal and the normal branch at concrete
configurations. -/
theorem extract_network_configs_mutual_auth_witness :
    extract_network_configs sample_nc_noauth =
      Except.error "Validator networks must always have mutual_authentication enabled!" ∧
    extract_network_configs sample_nc_vonly = Except.ok ([] ++ [sample_vcfg]) :=
  ⟨(extract_network_configs_mutual_auth sample_nc_noauth).2.1 sample_vcfg_noauth rfl rfl,
   (extract_network_configs_mutual_auth sample_nc_vonly).2.2 sample_vcfg rfl rfl⟩

end Network2

namespace Jwks

/-- C10: converting a JWK (RSA or Unsupported) to its Move representation
and back yields the original value, and `JWK::try_from` on every
`JWKMoveStruct` whose variant carries a type name other than the two known
ones is an error. -/
theorem jwk_move_struct_roundtrip :
    (∀ jwk : JWK, JWK.try_from (JWKMoveStruct.from jwk) = Except.ok jwk) ∧
    (∀ m : JWKMoveStruct,
      m.variant.type_name ≠ RSA_JWK.MOVE_TYPE_NAME →
      m.variant.type_name ≠ UnsupportedJWK.MOVE_TYPE_NAME →
      JWK.try_from m = Except.error "unknown JWK variant type name") := by
  constructor
  · intro jwk
    cases jwk with
    | RSA k =>
      simp [JWK.try_from, JWKMoveStruct.from, RSA_JWK.as_move_any,
        rsa_deserialize_serialize]
    | Unsupported k =>
      have hne : UnsupportedJWK.MOVE_TYPE_NAME ≠ RSA_JWK.MOVE_TYPE_NAME := by decide
      simp [JWK.try_from, JWKMoveStruct.from, UnsupportedJWK.as_move_any, hne,
        unsupported_deserialize_serialize]
  · intro m h1 h2
    simp [JWK.try_from, h1, h2]

/-- C10 witness: the unknown-name error conjunct discharged at the unit
test's concrete unknown variant. -/
theorem jwk_move_struct_roundtrip_witness :
    JWK.try_from { variant := { type_name := "type1", data := [] } } =
      Except.error "unknown JWK variant type name" :=
  jwk_move_struct_roundtrip.2 { variant := { type_name := "type1", data := [] } }
    (by decide) (by decide)

end Jwks

namespace Network2

/-- C3: `build_network_connections` hits its fatal branch exactly when the
combined protocol list is empty; with exactly one protocol it wraps the
single receiver, with two or more it merges them all. -/
theorem build_network_connections_source_shape (ds rpc : List ProtocolId)
    (qs : Nat) (label : String) (pam : PeersAndMetadata)
    (apps : ApplicationCollector) (nids : List NetworkId)
    (ps : OutboundPeerConnections) :
    ((∃ msg, build_network_connections ds rpc qs label pam apps nids ps =
        Except.error msg) ↔ ds ++ rpc = []) ∧
    (∀ p, ds ++ rpc = [p] →
      ∃ iface apps2,
        build_network_connections ds rpc qs label pam apps nids ps =
          Except.ok (iface, apps2) ∧
        iface.network_events.network_source =
          NetworkSource.single (builtReceiver qs label p)) ∧
    (∀ p1 p2 t, ds ++ rpc = p1 :: p2 :: t →
      ∃ iface apps2,
        build_network_connections ds rpc qs label pam apps nids ps =
          Except.ok (iface, apps2) ∧
        iface.network_events.network_source =
          NetworkSource.multi ((ds ++ rpc).map (builtReceiver qs label))) := by
  refine ⟨⟨?_, ?_⟩, ?_, ?_⟩
  · rintro ⟨msg, hmsg⟩
    cases hl : ds ++ rpc with
    | nil => rfl
    | cons p tl =>
      cases tl with
      | nil =>
        rw [build_network_connections_eq_single ds rpc qs label pam apps nids ps p hl]
          at hmsg
        cases hmsg
      | cons p2 t =>
        rw [build_network_connections_eq_multi ds rpc qs label pam apps nids ps p p2 t hl]
          at hmsg
        cases hmsg
  · intro h
    exact ⟨_, build_network_connections_eq_error ds rpc qs label pam apps nids ps h⟩
  · intro p h
    exact ⟨_, _, build_network_connections_eq_single ds rpc qs label pam apps nids ps p h,
      rfl⟩
  · intro p1 p2 t h
    refine ⟨_, _, build_network_connections_eq_multi ds rpc qs label pam apps nids ps
      p1 p2 t h, ?_⟩
    rw [h]
    rfl

/-- C3 witness: all three shapes at concrete protocol lists. -/
theorem build_network_connections_source_shape_witness :
    (∃ msg, build_network_connections [] [] 5 "none" sample_pam sample_apps [] sample_ps =
      Except.error msg) ∧
    (∃ iface apps2,
      build_network_connections [ProtocolId.MempoolDirectSend] [] 5 "mempool"
        sample_pam sample_apps [] sample_ps = Except.ok (iface, apps2) ∧
      iface.network_events.network_source =
        NetworkSource.single (builtReceiver 5 "mempool" ProtocolId.MempoolDirectSend)) ∧
    (∃ iface apps2,
      build_network_connections [ProtocolId.MempoolDirectSend]
        [ProtocolId.StorageServiceRpc] 5 "two" sample_pam sample_apps [] sample_ps =
        Except.ok (iface, apps2) ∧
      iface.network_events.network_source =
        NetworkSource.multi
          (([ProtocolId.MempoolDirectSend] ++ [ProtocolId.StorageServiceRpc]).map
            (builtReceiver 5 "two"))) :=
  ⟨(build_network_connections_source_shape [] [] 5 "none" sample_pam sample_apps []
      sample_ps).1.mpr rfl,
   (build_network_connections_source_shape [ProtocolId.MempoolDirectSend] [] 5 "mempool"
      sample_pam sample_apps [] sample_ps).2.1 ProtocolId.MempoolDirectSend rfl,
   (build_network_connections_source_shape [ProtocolId.MempoolDirectSend]
      [ProtocolId.StorageServiceRpc] 5 "two" sample_pam sample_apps [] sample_ps).2.2
      ProtocolId.MempoolDirectSend ProtocolId.StorageServiceRpc [] rfl⟩

/-- C4: with at least one declared protocol, the build succeeds and the
`NetworkClient` carries exactly the input direct-send and rpc protocol
lists, unchanged and in order. -/
theorem build_network_connections_protocol_fidelity (ds rpc : List ProtocolId)
    (qs : Nat) (label : String) (pam : PeersAndMetadata)
    (apps : ApplicationCollector) (nids : List NetworkId)
    (ps : OutboundPeerConnections) (h : ds ++ rpc ≠ []) :
    ∃ iface apps2,
      build_network_connections ds rpc qs label pam apps nids ps =
        Except.ok (iface, apps2) ∧
      iface.network_client.direct_send_protocols_and_preferences = ds ∧
      iface.network_client.rpc_protocols_and_preferences = rpc := by
  cases hl : ds ++ rpc with
  | nil => exact absurd hl h
  | cons p tl =>
    cases tl with
    | nil =>
      exact ⟨_, _, build_network_connections_eq_single ds rpc qs label pam apps nids ps
        p hl, rfl, rfl⟩
    | cons p2 t =>
      exact ⟨_, _, build_network_connections_eq_multi ds rpc qs label pam apps nids ps
        p p2 t hl, rfl, rfl⟩

/-- C4 witness: protocol fidelity at a concrete one-protocol build. -/
theorem build_network_connections_protocol_fidelity_witness :
    ∃ iface apps2,
      build_network_connections [ProtocolId.MempoolDirectSend] [] 5 "mempool"
        sample_pam sample_apps [] sample_ps = Except.ok (iface, apps2) ∧
      iface.network_client.direct_send_protocols_and_preferences =
        [ProtocolId.MempoolDirectSend] ∧
      iface.network_client.rpc_protocols_and_preferences = [] :=
  build_network_connections_protocol_fidelity [ProtocolId.MempoolDirectSend] [] 5
    "mempool" sample_pam sample_apps [] sample_ps (by decide)

/-- C5: with at least one declared protocol, the build registers exactly
one `ApplicationConnections` per protocol — direct-send list first, then
rpc list, each with the given queue size and counter label — with the
shared collector, and the single `MessageSource` holds exactly their
receivers, one per protocol, in the same order. -/
theorem build_network_connections_uniform_wiring (ds rpc : List ProtocolId)
    (qs : Nat) (label : String) (pam : PeersAndMetadata)
    (apps : ApplicationCollector) (nids : List NetworkId)
    (ps : OutboundPeerConnections) (h : ds ++ rpc ≠ []) :
    ∃ iface apps2,
      build_network_connections ds rpc qs label pam apps nids ps =
        Except.ok (iface, apps2) ∧
      apps2.apps = apps.apps ++ (ds ++ rpc).map (builtConnection qs label) ∧
      iface.network_events.network_source.receivers =
        (ds ++ rpc).map (builtReceiver qs label) := by
  cases hl : ds ++ rpc with
  | nil => exact absurd hl h
  | cons p tl =>
    cases tl with
    | nil =>
      refine ⟨_, _, build_network_connections_eq_single ds rpc qs label pam apps nids ps
        p hl, ?_, ?_⟩
      · rfl
      · rfl
    | cons p2 t =>
      refine ⟨_, _, build_network_connections_eq_multi ds rpc qs label pam apps nids ps
        p p2 t hl, ?_, ?_⟩
      · rfl
      · rfl

/-- C5 witness: uniform wiring at a concrete two-protocol build. -/
theorem build_network_connections_uniform_wiring_witness :
    ∃ iface apps2,
      build_network_connections [ProtocolId.MempoolDirectSend]
        [ProtocolId.StorageServiceRpc] 7 "two" sample_pam sample_apps [] sample_ps =
        Except.ok (iface, apps2) ∧
      apps2.apps = sample_apps.apps ++
        ([ProtocolId.MempoolDirectSend] ++ [ProtocolId.StorageServiceRpc]).map
          (builtConnection 7 "two") ∧
      iface.network_events.network_source.receivers =
        ([ProtocolId.MempoolDirectSend] ++ [ProtocolId.StorageServiceRpc]).map
          (builtReceiver 7 "two") :=
  build_network_connections_uniform_wiring [ProtocolId.MempoolDirectSend]
    [ProtocolId.StorageServiceRpc] 7 "two" sample_pam sample_apps [] sample_ps
    (by decide)

end Network2

namespace Network2

/-- C6: the sender map of a freshly built interface binds exactly the
input network ids — looking up any id in the input list yields the
`NetworkSender` bound to that id and the shared outbound registry, any
other id yields nothing — and zero configured networks yield an empty
sender map. -/
theorem interfaces_client_sender_per_network (ds rpc : List ProtocolId)
    (pam : PeersAndMetadata) (src : NetworkSource) (ids : List NetworkId)
    (ps : OutboundPeerConnections) :
    (∀ k, getSender
        (ApplicationNetworkInterfaces.new ds rpc pam src ids ps).network_client.network_senders
        k = if k ∈ ids then some (NetworkSender.new k ps) else none) ∧
    (ids = [] →
      (ApplicationNetworkInterfaces.new ds rpc pam src ids ps).network_client.network_senders
        = []) := by
  constructor
  · intro k
    exact interfaces_new_getSender ds rpc pam src ids ps k
  · intro h
    subst h
    rfl

/-- C6 witness: lookups and the empty map at concrete network id lists. -/
theorem interfaces_client_sender_per_network_witness :
    getSender
      (ApplicationNetworkInterfaces.new [] [ProtocolId.StorageServiceRpc] sample_pam
        (NetworkSource.multi []) [NetworkId.Public] sample_ps).network_client.network_senders
      NetworkId.Public = some (NetworkSender.new NetworkId.Public sample_ps) ∧
    (ApplicationNetworkInterfaces.new [] [ProtocolId.StorageServiceRpc] sample_pam
      (NetworkSource.multi []) [] sample_ps).network_client.network_senders = [] := by
  constructor
  · have h := (interfaces_client_sender_per_network [] [ProtocolId.StorageServiceRpc]
      sample_pam (NetworkSource.multi []) [NetworkId.Public] sample_ps).1 NetworkId.Public
    simpa using h
  · exact (interfaces_client_sender_per_network [] [ProtocolId.StorageServiceRpc]
      sample_pam (NetworkSource.multi []) [] sample_ps).2 rfl

/-- C7: with a validator network lacking mutual authentication,
`setup_networks` fails with the fatal message before creating any runtime
or builder (its result carries none); flipping only the authentication
flag to true makes it return one runtime and one built `NetworkBuilder`
per configured network. -/
theorem setup_networks_auth_gate (nc : NodeConfig) (chain_id : Nat)
    (pam : PeersAndMetadata) (ps : OutboundPeerConnections) (vc : NetworkConfig)
    (hvc : nc.validator_network = some vc)
    (hm : vc.mutual_authentication = false) :
    setup_networks nc chain_id pam ps =
      Except.error "Validator networks must always have mutual_authentication enabled!" ∧
    setup_networks
        { nc with validator_network := some { vc with mutual_authentication := true } }
        chain_id pam ps =
      Except.ok
        ((nc.full_node_networks ++ [{ vc with mutual_authentication := true }]).map
          create_network_runtime,
         (nc.full_node_networks ++ [{ vc with mutual_authentication := true }]).map
          (fun c => NetworkBuilder.create chain_id c pam ps)) := by
  constructor
  · have he : extract_network_configs nc =
        Except.error "Validator networks must always have mutual_authentication enabled!" := by
      simp [extract_network_configs, hvc, hm]
    unfold setup_networks
    rw [he]
    rfl
  · have he : extract_network_configs
        { nc with validator_network := some { vc with mutual_authentication := true } } =
        Except.ok (nc.full_node_networks ++ [{ vc with mutual_authentication := true }]) := by
      simp [extract_network_configs]
    unfold setup_networks
    rw [he]
    simp only [Except.map, setup_networks_foldl]
    simp

/-- C7 witness: the fatal branch and the flag-flipped success at a
concrete configuration. -/
theorem setup_networks_auth_gate_witness :
    setup_networks sample_nc_noauth 1 sample_pam sample_ps =
      Except.error "Validator networks must always have mutual_authentication enabled!" ∧
    setup_networks
        { sample_nc_noauth with
          validator_network := some { sample_vcfg_noauth with mutual_authentication := true } }
        1 sample_pam sample_ps =
      Except.ok
        ((sample_nc_noauth.full_node_networks ++
            [{ sample_vcfg_noauth with mutual_authentication := true }]).map
          create_network_runtime,
         (sample_nc_noauth.full_node_networks ++
            [{ sample_vcfg_noauth with mutual_authentication := true }]).map
          (fun c => NetworkBuilder.create 1 c sample_pam sample_ps)) :=
  setup_networks_auth_gate sample_nc_noauth 1 sample_pam sample_ps sample_vcfg_noauth
    rfl rfl

end Network2

namespace Network2

/-- C8: every queue built for an application uses that application's own
configured channel size (and its own counter label): consensus connections
use `consensus.max_network_channel_size`, mempool uses
`mempool.max_network_channel_size`, the storage service uses
`state_sync.storage_service.max_network_channel_size`, and peer monitoring
uses `peer_monitoring_service.max_network_channel_size`. -/
theorem queue_sizes_from_own_config (nc : NodeConfig) (pam : PeersAndMetadata)
    (apps : ApplicationCollector) (ps : OutboundPeerConnections) :
    (∀ r apps2, consensus_network_connections nc pam apps ps = Except.ok (r, apps2) →
      ∃ added, apps2.apps = apps.apps ++ added ∧
        ∀ a ∈ added, a.queue_size = nc.consensus.max_network_channel_size ∧
          a.counter_label = "consensus") ∧
    (∃ iface apps2,
      mempool_network_connections nc pam apps ps = Except.ok (iface, apps2) ∧
      apps2.apps = apps.apps ++
        [builtConnection nc.mempool.max_network_channel_size "mempool"
          ProtocolId.MempoolDirectSend]) ∧
    (∃ iface apps2,
      storage_service_network_connections nc pam apps ps = Except.ok (iface, apps2) ∧
      apps2.apps = apps.apps ++
        [builtConnection nc.state_sync.storage_service.max_network_channel_size
          "storage_service" ProtocolId.StorageServiceRpc]) ∧
    (∃ iface apps2,
      peer_monitoring_network_connections nc pam apps ps = Except.ok (iface, apps2) ∧
      apps2.apps = apps.apps ++
        [builtConnection nc.peer_monitoring_service.max_network_channel_size
          "peer_monitoring" ProtocolId.PeerMonitoringServiceRpc]) := by
  refine ⟨?_, ?_, ?_, ?_⟩
  · intro r apps2 hok
    cases hv : has_validator_network nc with
    | false =>
      have hnone : consensus_network_connections nc pam apps ps =
          Except.ok (none, apps) := by
        simp [consensus_network_connections, hv]
      rw [hnone] at hok
      simp only [Except.ok.injEq, Prod.mk.injEq] at hok
      obtain ⟨_, hap⟩ := hok
      subst hap
      exact ⟨[], by simp, by simp⟩
    | true =>
      have hm := consensus_connections_ok nc pam apps ps hv
      rw [hm] at hok
      simp only [Except.ok.injEq, Prod.mk.injEq] at hok
      obtain ⟨_, hap⟩ := hok
      subst hap
      refine ⟨(CONSENSUS_DIRECT_SEND ++ CONSENSUS_RPC).map
        (builtConnection nc.consensus.max_network_channel_size "consensus"), rfl, ?_⟩
      intro a ha
      rw [List.mem_map] at ha
      obtain ⟨p, _, hpa⟩ := ha
      subst hpa
      exact ⟨rfl, rfl⟩
  · exact ⟨_, _, build_network_connections_eq_single [ProtocolId.MempoolDirectSend] []
      nc.mempool.max_network_channel_size "mempool" pam apps (extract_network_ids nc) ps
      ProtocolId.MempoolDirectSend rfl, rfl⟩
  · exact ⟨_, _, build_network_connections_eq_single [] [ProtocolId.StorageServiceRpc]
      nc.state_sync.storage_service.max_network_channel_size "storage_service" pam apps
      (extract_network_ids nc) ps ProtocolId.StorageServiceRpc rfl, rfl⟩
  · exact ⟨_, _, build_network_connections_eq_single [] [ProtocolId.PeerMonitoringServiceRpc]
      nc.peer_monitoring_service.max_network_channel_size "peer_monitoring" pam apps
      (extract_network_ids nc) ps ProtocolId.PeerMonitoringServiceRpc rfl, rfl⟩

/-- C8 witness: the consensus conjunct discharged at a configuration where
the consensus wiring returns the absent value, alongside its concrete
collector equation. -/
theorem queue_sizes_from_own_config_witness :
    ∃ added, sample_apps.apps = sample_apps.apps ++ added ∧
      ∀ a ∈ added, a.queue_size = sample_nc_vonly.consensus.max_network_channel_size ∧
        a.counter_label = "consensus" :=
  (queue_sizes_from_own_config sample_nc_vonly sample_pam sample_apps sample_ps).1
    none sample_apps rfl

end Network2

namespace Network2

lemma build_client_getSender (ds rpc : List ProtocolId) (qs : Nat) (label : String)
    (pam : PeersAndMetadata) (apps : ApplicationCollector) (nids : List NetworkId)
    (ps : OutboundPeerConnections) (iface : ApplicationNetworkInterfaces)
    (apps2 : ApplicationCollector)
    (hok : build_network_connections ds rpc qs label pam apps nids ps =
      Except.ok (iface, apps2)) (k : NetworkId) :
    getSender iface.network_client.network_senders k =
      if k ∈ nids then some (NetworkSender.new k ps) else none := by
  cases hl : ds ++ rpc with
  | nil =>
    rw [build_network_connections_eq_error ds rpc qs label pam apps nids ps hl] at hok
    cases hok
  | cons p tl =>
    cases tl with
    | nil =>
      rw [build_network_connections_eq_single ds rpc qs label pam apps nids ps p hl] at hok
      simp only [Except.ok.injEq, Prod.mk.injEq] at hok
      obtain ⟨hif, _⟩ := hok
      subst hif
      exact interfaces_new_getSender ds rpc pam _ nids ps k
    | cons p2 t =>
      rw [build_network_connections_eq_multi ds rpc qs label pam apps nids ps p p2 t hl]
        at hok
      simp only [Except.ok.injEq, Prod.mk.injEq] at hok
      obtain ⟨hif, _⟩ := hok
      subst hif
      exact interfaces_new_getSender ds rpc pam _ nids ps k

/-- C9: `extract_network_ids` lists the full-node network ids in declared
order followed by the validator network's id when configured;
`create_peers_and_metadata` registers exactly this list; and every
application interface built from the node config gets one sender per
network id in this same list (shown by sender lookup for all four
application wiring functions). -/
theorem network_ids_extraction_and_registration (nc : NodeConfig) :
    extract_network_ids nc =
      nc.full_node_networks.map (fun network_config => network_config.network_id) ++
        (match nc.validator_network with
         | some network_config => [network_config.network_id]
         | none => []) ∧
    (create_peers_and_metadata nc).network_ids = extract_network_ids nc ∧
    (∀ pam apps ps iface apps2,
      mempool_network_connections nc pam apps ps = Except.ok (iface, apps2) →
      ∀ k, getSender iface.network_client.network_senders k =
        if k ∈ extract_network_ids nc then some (NetworkSender.new k ps) else none) ∧
    (∀ pam apps ps iface apps2,
      storage_service_network_connections nc pam apps ps = Except.ok (iface, apps2) →
      ∀ k, getSender iface.network_client.network_senders k =
        if k ∈ extract_network_ids nc then some (NetworkSender.new k ps) else none) ∧
    (∀ pam apps ps iface apps2,
      peer_monitoring_network_connections nc pam apps ps = Except.ok (iface, apps2) →
      ∀ k, getSender iface.network_client.network_senders k =
        if k ∈ extract_network_ids nc then some (NetworkSender.new k ps) else none) ∧
    (∀ pam apps ps iface apps2,
      consensus_network_connections nc pam apps ps = Except.ok (some iface, apps2) →
      ∀ k, getSender iface.network_client.network_senders k =
        if k ∈ extract_network_ids nc then some (NetworkSender.new k ps) else none) := by
  refine ⟨rfl, rfl, ?_, ?_, ?_, ?_⟩
  · intro pam apps ps iface apps2 hok k
    exact build_client_getSender [ProtocolId.MempoolDirectSend] []
      nc.mempool.max_network_channel_size "mempool" pam apps (extract_network_ids nc) ps
      iface apps2 hok k
  · intro pam apps ps iface apps2 hok k
    exact build_client_getSender [] [ProtocolId.StorageServiceRpc]
      nc.state_sync.storage_service.max_network_channel_size "storage_service" pam apps
      (extract_network_ids nc) ps iface apps2 hok k
  · intro pam apps ps iface apps2 hok k
    exact build_client_getSender [] [ProtocolId.PeerMonitoringServiceRpc]
      nc.peer_monitoring_service.max_network_channel_size "peer_monitoring" pam apps
      (extract_network_ids nc) ps iface apps2 hok k
  · intro pam apps ps iface apps2 hok k
    cases hv : has_validator_network nc with
    | false =>
      have hnone : consensus_network_connections nc pam apps ps =
          Except.ok (none, apps) := by
        simp [consensus_network_connections, hv]
      rw [hnone] at hok
      simp at hok
    | true =>
      have hm := consensus_connections_ok nc pam apps ps hv
      rw [hm] at hok
      simp only [Except.ok.injEq, Prod.mk.injEq, Option.some.injEq] at hok
      obtain ⟨hif, _⟩ := hok
      subst hif
      exact interfaces_new_getSender CONSENSUS_DIRECT_SEND CONSENSUS_RPC pam _
        (extract_network_ids nc) ps k

/-- C9 witness: the mempool conjunct discharged at a concrete
configuration. -/
theorem network_ids_registration_witness :
    ∃ iface apps2,
      mempool_network_connections sample_nc_vonly sample_pam sample_apps sample_ps =
        Except.ok (iface, apps2) ∧
      getSender iface.network_client.network_senders NetworkId.Validator =
        (if NetworkId.Validator ∈ extract_network_ids sample_nc_vonly
         then some (NetworkSender.new NetworkId.Validator sample_ps) else none) := by
  have hb := build_network_connections_eq_single [ProtocolId.MempoolDirectSend] []
    sample_nc_vonly.mempool.max_network_channel_size "mempool" sample_pam sample_apps
    (extract_network_ids sample_nc_vonly) sample_ps ProtocolId.MempoolDirectSend rfl
  refine ⟨_, _, hb, ?_⟩
  exact (network_ids_extraction_and_registration sample_nc_vonly).2.2.1 sample_pam
    sample_apps sample_ps _ _ hb NetworkId.Validator

end Network2
